import Mathlib

/-!
Shallow embedding of `src/python_tools/spacecraft_toos.py` (repository AWP).

The file holds two stateless numeric functions. Real-valued Python floats are
modelled by `ℝ`. A function result is `Option ℝ` (or `Option ℂ`, see below):
`none` stands for the Python `None` sentinel returned on the invalid-input
branch. The `print` call on the error branch of the first function is modelled
by returning, next to the result, the list of messages the call emits, so the
embedding of each function returns a pair `(result, messages)`.

Python exponentiation `x ** 0.25` on floats promotes a negative base with a
non-integer exponent to a complex result, so `calc_panel_temperature` is
modelled with values in `ℂ` through the complex power `Complex.cpow`; on a
non-negative base this agrees with the real power `Real.rpow`
(`Complex.ofReal_cpow`).
-/

open Real

/-- Degrees-to-radians conversion, the embedding of `np.deg2rad`. -/
noncomputable def deg2rad (x : ℝ) : ℝ := x * (Real.pi / 180)

/-- Embedding of `calc_solar_array_power_generation`. The first component is
the returned value (`none` on the `sun_distance == 0` branch), the second the
list of messages printed during the call. -/
noncomputable def calc_solar_array_power_generation (sun_distance : ℝ)
    (effective_area : ℝ) (efficiency : ℝ := 0.28) (incidence_angle : ℝ := 0)
    (solar_constant : ℝ := 1366) : Option ℝ × List String :=
  if sun_distance ≠ 0 then
    (some ((1.0 / sun_distance ^ 2) * solar_constant * effective_area *
      efficiency * Real.cos (deg2rad incidence_angle)), [])
  else
    (none,
      ["[WARNING - calc_solar_array_power_generation] - Input value sun_distance cannot be 0."])

/-- Stefan-Boltzmann constant as written in the source: `5.670374419*10**-8`. -/
noncomputable def STEFAN_BOLTZMANN : ℝ := 5.670374419 * (10 : ℝ) ^ (-8 : ℤ)

/-- Embedding of `calc_panel_temperature`. Values live in `ℂ` because the
Python power `base ** 0.25` yields a complex number when `base < 0`; the
second component is the (always empty) list of printed messages. -/
noncomputable def calc_panel_temperature (sun_distance : ℝ)
    (absorptivity : ℝ := 0.85) (emissivity : ℝ := 0.72)
    (solar_constant : ℝ := 1366) : Option ℂ × List String :=
  if sun_distance ≠ 0 then
    let solar_flux : ℝ := solar_constant * (1.0 / sun_distance ^ 2)
    let panel_temperature : ℂ :=
      (((absorptivity * solar_flux) / (2 * emissivity * STEFAN_BOLTZMANN) : ℝ) : ℂ)
        ^ ((0.25 : ℝ) : ℂ)
    (some (panel_temperature * ((273.15 : ℝ) : ℂ)), [])
  else
    (none, [])

lemma STEFAN_BOLTZMANN_eq : STEFAN_BOLTZMANN = 5.670374419 / 10 ^ 8 := by
  unfold STEFAN_BOLTZMANN
  norm_num

lemma STEFAN_BOLTZMANN_pos : 0 < STEFAN_BOLTZMANN := by
  rw [STEFAN_BOLTZMANN_eq]
  norm_num

lemma calc_solar_of_ne (sun_distance effective_area efficiency incidence_angle
    solar_constant : ℝ) (hd : sun_distance ≠ 0) :
    calc_solar_array_power_generation sun_distance effective_area efficiency
      incidence_angle solar_constant =
    (some ((1.0 / sun_distance ^ 2) * solar_constant * effective_area *
      efficiency * Real.cos (deg2rad incidence_angle)), []) := by
  unfold calc_solar_array_power_generation
  rw [if_pos hd]

lemma calc_panel_of_ne (sun_distance absorptivity emissivity
    solar_constant : ℝ) (hd : sun_distance ≠ 0) :
    calc_panel_temperature sun_distance absorptivity emissivity solar_constant =
    (some ((((absorptivity * (solar_constant * (1.0 / sun_distance ^ 2))) /
        (2 * emissivity * STEFAN_BOLTZMANN) : ℝ) : ℂ) ^ ((0.25 : ℝ) : ℂ) *
        ((273.15 : ℝ) : ℂ)), []) := by
  unfold calc_panel_temperature
  rw [if_pos hd]

/-- When the base of the quarter power is non-negative, the complex power in
`calc_panel_temperature` collapses to the real power `Real.rpow`. -/
lemma calc_panel_of_nonneg (sun_distance absorptivity emissivity
    solar_constant : ℝ) (hd : sun_distance ≠ 0)
    (hb : 0 ≤ (absorptivity * (solar_constant * (1.0 / sun_distance ^ 2))) /
      (2 * emissivity * STEFAN_BOLTZMANN)) :
    calc_panel_temperature sun_distance absorptivity emissivity solar_constant =
    (some ((((absorptivity * (solar_constant * (1.0 / sun_distance ^ 2))) /
        (2 * emissivity * STEFAN_BOLTZMANN)) ^ (0.25 : ℝ) * 273.15 : ℝ) : ℂ),
      []) := by
  rw [calc_panel_of_ne _ _ _ _ hd]
  rw [← Complex.ofReal_cpow hb]
  push_cast
  ring_nf

/-- C1: for `sunDistance = 0` both functions return the `None` sentinel (the
formula branch, and with it the division, is never entered), and for every
nonzero `sunDistance` both return a numeric result. -/
theorem claim_C1_zero_sentinel_nonzero_numeric
    (d effective_area efficiency incidence_angle solar_constant
      absorptivity emissivity : ℝ) (hd : d ≠ 0) :
    (calc_solar_array_power_generation 0 effective_area efficiency
        incidence_angle solar_constant).1 = none ∧
    (calc_panel_temperature 0 absorptivity emissivity solar_constant).1 =
      none ∧
    (∃ p : ℝ, (calc_solar_array_power_generation d effective_area efficiency
        incidence_angle solar_constant).1 = some p) ∧
    (∃ t : ℂ, (calc_panel_temperature d absorptivity emissivity
        solar_constant).1 = some t) := by
  refine ⟨?_, ?_, ?_, ?_⟩
  · unfold calc_solar_array_power_generation
    simp
  · unfold calc_panel_temperature
    simp
  · exact ⟨_, by rw [calc_solar_of_ne _ _ _ _ _ hd]⟩
  · exact ⟨_, by rw [calc_panel_of_ne _ _ _ _ hd]⟩

theorem claim_C1_witness :
    (calc_solar_array_power_generation 0 1 1 0 1366).1 = none ∧
    (calc_panel_temperature 0 0.85 0.72 1366).1 = none ∧
    (∃ p : ℝ, (calc_solar_array_power_generation 3 1 1 0 1366).1 = some p) ∧
    (∃ t : ℂ, (calc_panel_temperature 3 0.85 0.72 1366).1 = some t) :=
  claim_C1_zero_sentinel_nonzero_numeric 3 1 1 0 1366 0.85 0.72
    (by norm_num)

/-- C2: for nonzero `sunDistance` the power is exactly
`(1 / sunDistance^2) * solarConstant * effectiveArea * efficiency *
cos(radians incidenceAngle)`. -/
theorem claim_C2_power_formula
    (d effective_area efficiency incidence_angle solar_constant : ℝ)
    (hd : d ≠ 0) :
    (calc_solar_array_power_generation d effective_area efficiency
        incidence_angle solar_constant).1 =
      some ((1 / d ^ 2) * solar_constant * effective_area * efficiency *
        Real.cos (deg2rad incidence_angle)) := by
  rw [calc_solar_of_ne _ _ _ _ _ hd]
  norm_num

theorem claim_C2_witness :
    (calc_solar_array_power_generation 2 5 0.3 60 1366).1 =
      some ((1 / (2 : ℝ) ^ 2) * 1366 * 5 * 0.3 * Real.cos (deg2rad 60)) :=
  claim_C2_power_formula 2 5 0.3 60 1366 (by norm_num)

/-- C4: on the `sunDistance = 0` error path the first function prints the
warning message while the second prints nothing, and both return the `None`
sentinel. -/
theorem claim_C4_warning_asymmetry
    (effective_area efficiency incidence_angle solar_constant
      absorptivity emissivity : ℝ) :
    (calc_solar_array_power_generation 0 effective_area efficiency
        incidence_angle solar_constant).2 =
      ["[WARNING - calc_solar_array_power_generation] - Input value sun_distance cannot be 0."] ∧
    (calc_panel_temperature 0 absorptivity emissivity solar_constant).2 =
      [] ∧
    (calc_solar_array_power_generation 0 effective_area efficiency
        incidence_angle solar_constant).1 = none ∧
    (calc_panel_temperature 0 absorptivity emissivity solar_constant).1 =
      none := by
  unfold calc_solar_array_power_generation calc_panel_temperature
  simp

/-- C7: the concrete evaluation at `sunDistance=1, effectiveArea=1,
efficiency=1, incidenceAngle=0, solarConstant=1366` returns exactly `1366`. -/
theorem claim_C7_concrete_1366 :
    (calc_solar_array_power_generation 1 1 1 0 1366).1 = some 1366 := by
  rw [calc_solar_of_ne 1 1 1 0 1366 (by norm_num)]
  unfold deg2rad
  norm_num

/-- C5: inverse-square scaling: with all other parameters equal, the power at
`sunDistance = 2` is one quarter of the power at `sunDistance = 1`. -/
theorem claim_C5_inverse_square
    (effective_area efficiency incidence_angle solar_constant : ℝ) :
    ∃ p1 p2 : ℝ,
      (calc_solar_array_power_generation 1 effective_area efficiency
        incidence_angle solar_constant).1 = some p1 ∧
      (calc_solar_array_power_generation 2 effective_area efficiency
        incidence_angle solar_constant).1 = some p2 ∧
      p2 = p1 / 4 := by
  refine ⟨(1.0 / (1 : ℝ) ^ 2) * solar_constant * effective_area * efficiency *
      Real.cos (deg2rad incidence_angle),
    (1.0 / (2 : ℝ) ^ 2) * solar_constant * effective_area * efficiency *
      Real.cos (deg2rad incidence_angle), ?_, ?_, ?_⟩
  · rw [calc_solar_of_ne _ _ _ _ _ (one_ne_zero)]
  · rw [calc_solar_of_ne _ _ _ _ _ (two_ne_zero)]
  · ring

/-- C9: both functions are even in `sunDistance`: negating a nonzero
`sunDistance` leaves each result (value and messages) unchanged, because the
distance enters only through its square. -/
theorem claim_C9_even_in_distance
    (d effective_area efficiency incidence_angle solar_constant
      absorptivity emissivity : ℝ) (hd : d ≠ 0) :
    calc_solar_array_power_generation (-d) effective_area efficiency
        incidence_angle solar_constant =
      calc_solar_array_power_generation d effective_area efficiency
        incidence_angle solar_constant ∧
    calc_panel_temperature (-d) absorptivity emissivity solar_constant =
      calc_panel_temperature d absorptivity emissivity solar_constant := by
  have hnd : -d ≠ 0 := neg_ne_zero.mpr hd
  constructor
  · rw [calc_solar_of_ne _ _ _ _ _ hnd, calc_solar_of_ne _ _ _ _ _ hd,
      neg_sq]
  · rw [calc_panel_of_ne _ _ _ _ hnd, calc_panel_of_ne _ _ _ _ hd, neg_sq]

theorem claim_C9_witness :
    calc_solar_array_power_generation (-1) 1 0.28 0 1366 =
      calc_solar_array_power_generation 1 1 0.28 0 1366 ∧
    calc_panel_temperature (-1) 0.85 0.72 1366 =
      calc_panel_temperature 1 0.85 0.72 1366 :=
  claim_C9_even_in_distance 1 1 0.28 0 1366 0.85 0.72 (by norm_num)

/-- C8: for an incidence angle strictly between 90 and 270 degrees, nonzero
`sunDistance` and positive area, efficiency and solar constant, the returned
power is negative (no clamping to zero occurs). -/
theorem claim_C8_negative_power
    (d effective_area efficiency incidence_angle solar_constant : ℝ)
    (hd : d ≠ 0) (h90 : 90 < incidence_angle) (h270 : incidence_angle < 270)
    (hea : 0 < effective_area) (heff : 0 < efficiency)
    (hsc : 0 < solar_constant) :
    ∃ p : ℝ, (calc_solar_array_power_generation d effective_area efficiency
        incidence_angle solar_constant).1 = some p ∧ p < 0 := by
  rw [calc_solar_of_ne _ _ _ _ _ hd]
  refine ⟨_, rfl, ?_⟩
  have hpi := Real.pi_pos
  have hcos : Real.cos (deg2rad incidence_angle) < 0 := by
    apply Real.cos_neg_of_pi_div_two_lt_of_lt
    · unfold deg2rad
      nlinarith
    · unfold deg2rad
      nlinarith
  have h2 : (0 : ℝ) < d ^ 2 :=
    lt_of_le_of_ne (sq_nonneg d) (Ne.symm (pow_ne_zero 2 hd))
  have hpre : 0 < 1.0 / d ^ 2 * solar_constant * effective_area *
      efficiency := by
    have h1 : (0 : ℝ) < 1.0 / d ^ 2 := by positivity
    positivity
  exact mul_neg_of_pos_of_neg hpre hcos

theorem claim_C8_witness :
    ∃ p : ℝ, (calc_solar_array_power_generation 1 1 1 180 1366).1 = some p ∧
      p < 0 :=
  claim_C8_negative_power 1 1 1 180 1366 (by norm_num) (by norm_num)
    (by norm_num) (by norm_num) (by norm_num) (by norm_num)

/-- C3: for nonzero `sunDistance` the returned value is
`((absorptivity * (solarConstant / sunDistance^2)) /
(2 * emissivity * sigma)) ^ 0.25` multiplied by `273.15` (not minus
`273.15`), with `sigma = 5.670374419e-8`. -/
theorem claim_C3_temperature_formula
    (d absorptivity emissivity solar_constant : ℝ) (hd : d ≠ 0) :
    (calc_panel_temperature d absorptivity emissivity solar_constant).1 =
      some ((((absorptivity * (solar_constant / d ^ 2)) /
        (2 * emissivity * STEFAN_BOLTZMANN) : ℝ) : ℂ) ^ ((0.25 : ℝ) : ℂ) *
        ((273.15 : ℝ) : ℂ)) := by
  have hbase : absorptivity * (solar_constant * (1.0 / d ^ 2)) =
      absorptivity * (solar_constant / d ^ 2) := by ring
  rw [calc_panel_of_ne _ _ _ _ hd, hbase]

theorem claim_C3_witness :
    (calc_panel_temperature 1 0.85 0.72 1366).1 =
      some (((((0.85 : ℝ) * (1366 / 1 ^ 2)) /
        (2 * 0.72 * STEFAN_BOLTZMANN) : ℝ) : ℂ) ^ ((0.25 : ℝ) : ℂ) *
        ((273.15 : ℝ) : ℂ)) :=
  claim_C3_temperature_formula 1 0.85 0.72 1366 (by norm_num)

/-- C6 counterexample: the claim quantifies over every pair `d1 < d2` of sun
distances, but the function is even in the distance, so on the negative pair
`d1 = -2 < d2 = -1` (default remaining parameters) the value at `d1` is
strictly SMALLER than the value at `d2`, refuting strict decrease. -/
theorem claim_C6_counterexample :
    ∃ t1 t2 : ℝ,
      (calc_panel_temperature (-2) 0.85 0.72 1366).1 = some ((t1 : ℝ) : ℂ) ∧
      (calc_panel_temperature (-1) 0.85 0.72 1366).1 = some ((t2 : ℝ) : ℂ) ∧
      t1 < t2 := by
  refine ⟨((0.85 * (1366 * (1.0 / (-2 : ℝ) ^ 2))) /
      (2 * 0.72 * STEFAN_BOLTZMANN)) ^ (0.25 : ℝ) * 273.15,
    ((0.85 * (1366 * (1.0 / (-1 : ℝ) ^ 2))) /
      (2 * 0.72 * STEFAN_BOLTZMANN)) ^ (0.25 : ℝ) * 273.15, ?_, ?_, ?_⟩
  · rw [calc_panel_of_nonneg (-2) 0.85 0.72 1366 (by norm_num)
      (by rw [STEFAN_BOLTZMANN_eq]; norm_num)]
  · rw [calc_panel_of_nonneg (-1) 0.85 0.72 1366 (by norm_num)
      (by rw [STEFAN_BOLTZMANN_eq]; norm_num)]
  · have hlt : (0.85 * (1366 * (1.0 / (-2 : ℝ) ^ 2))) /
        (2 * 0.72 * STEFAN_BOLTZMANN) <
        (0.85 * (1366 * (1.0 / (-1 : ℝ) ^ 2))) /
        (2 * 0.72 * STEFAN_BOLTZMANN) := by
      rw [STEFAN_BOLTZMANN_eq]
      norm_num
    have hnn : (0 : ℝ) ≤ (0.85 * (1366 * (1.0 / (-2 : ℝ) ^ 2))) /
        (2 * 0.72 * STEFAN_BOLTZMANN) := by
      rw [STEFAN_BOLTZMANN_eq]
      norm_num
    exact mul_lt_mul_of_pos_right
      (Real.rpow_lt_rpow hnn hlt (by norm_num)) (by norm_num)

/-- C6 amended: for sun distances `0 < d1 < d2` and positive absorptivity,
emissivity and solar constant, the temperature at `d1` is strictly greater
than the temperature at `d2` (both results are real numbers). -/
theorem claim_C6_amended_monotone
    (d1 d2 absorptivity emissivity solar_constant : ℝ) (hd1 : 0 < d1)
    (h12 : d1 < d2) (ha : 0 < absorptivity) (he : 0 < emissivity)
    (hs : 0 < solar_constant) :
    ∃ t1 t2 : ℝ,
      (calc_panel_temperature d1 absorptivity emissivity solar_constant).1 =
        some ((t1 : ℝ) : ℂ) ∧
      (calc_panel_temperature d2 absorptivity emissivity solar_constant).1 =
        some ((t2 : ℝ) : ℂ) ∧
      t2 < t1 := by
  have hd2 : 0 < d2 := hd1.trans h12
  have hσ := STEFAN_BOLTZMANN_pos
  have hb1 : (0 : ℝ) ≤ (absorptivity * (solar_constant * (1.0 / d1 ^ 2))) /
      (2 * emissivity * STEFAN_BOLTZMANN) := by positivity
  have hb2 : (0 : ℝ) ≤ (absorptivity * (solar_constant * (1.0 / d2 ^ 2))) /
      (2 * emissivity * STEFAN_BOLTZMANN) := by positivity
  have hlt : (absorptivity * (solar_constant * (1.0 / d2 ^ 2))) /
      (2 * emissivity * STEFAN_BOLTZMANN) <
      (absorptivity * (solar_constant * (1.0 / d1 ^ 2))) /
      (2 * emissivity * STEFAN_BOLTZMANN) := by
    have hinv : 1.0 / d2 ^ 2 < 1.0 / d1 ^ 2 := by
      have h1 : (0 : ℝ) < d1 ^ 2 := by positivity
      have hsq : d1 ^ 2 < d2 ^ 2 := by nlinarith
      norm_num
      exact inv_strictAnti₀ h1 hsq
    gcongr
  refine ⟨((absorptivity * (solar_constant * (1.0 / d1 ^ 2))) /
      (2 * emissivity * STEFAN_BOLTZMANN)) ^ (0.25 : ℝ) * 273.15,
    ((absorptivity * (solar_constant * (1.0 / d2 ^ 2))) /
      (2 * emissivity * STEFAN_BOLTZMANN)) ^ (0.25 : ℝ) * 273.15, ?_, ?_, ?_⟩
  · rw [calc_panel_of_nonneg _ _ _ _ (ne_of_gt hd1) hb1]
  · rw [calc_panel_of_nonneg _ _ _ _ (ne_of_gt hd2) hb2]
  · exact mul_lt_mul_of_pos_right
      (Real.rpow_lt_rpow hb2 hlt (by norm_num)) (by norm_num)

theorem claim_C6_amended_witness :
    ∃ t1 t2 : ℝ,
      (calc_panel_temperature 1 0.85 0.72 1366).1 = some ((t1 : ℝ) : ℂ) ∧
      (calc_panel_temperature 2 0.85 0.72 1366).1 = some ((t2 : ℝ) : ℂ) ∧
      t2 < t1 :=
  claim_C6_amended_monotone 1 2 0.85 0.72 1366 (by norm_num) (by norm_num)
    (by norm_num) (by norm_num) (by norm_num)

/-- C10: whenever the base `(absorptivity * solar_flux) /
(2 * emissivity * sigma)` of the quarter power is negative (possible with
nonzero `sunDistance`, e.g. positive absorptivity, negative emissivity,
positive solar constant), the returned value has a nonzero imaginary part, so
it is not a real scalar; hence the result is a real scalar only when that
base is non-negative. -/
theorem claim_C10_nonreal_on_negative_base
    (d absorptivity emissivity solar_constant : ℝ) (hd : d ≠ 0)
    (hb : (absorptivity * (solar_constant * (1.0 / d ^ 2))) /
      (2 * emissivity * STEFAN_BOLTZMANN) < 0) :
    ∃ z : ℂ, (calc_panel_temperature d absorptivity emissivity
        solar_constant).1 = some z ∧ z.im ≠ 0 := by
  rw [calc_panel_of_ne _ _ _ _ hd]
  refine ⟨_, rfl, ?_⟩
  set b : ℝ := (absorptivity * (solar_constant * (1.0 / d ^ 2))) /
    (2 * emissivity * STEFAN_BOLTZMANN) with hbdef
  have hbne : (b : ℂ) ≠ 0 := Complex.ofReal_ne_zero.mpr (ne_of_lt hb)
  have him : 0 < ((b : ℂ) ^ ((0.25 : ℝ) : ℂ)).im := by
    rw [Complex.cpow_def_of_ne_zero hbne, Complex.exp_im]
    have harg : (Complex.log (b : ℂ)).im = Real.pi := by
      rw [Complex.log_im]
      exact Complex.arg_ofReal_of_neg hb
    have him2 : (Complex.log (b : ℂ) * ((0.25 : ℝ) : ℂ)).im =
        Real.pi * 0.25 := by
      rw [Complex.mul_im, harg]
      simp
    rw [him2]
    have hsin : 0 < Real.sin (Real.pi * 0.25) := by
      apply Real.sin_pos_of_pos_of_lt_pi
      · positivity
      · nlinarith [Real.pi_pos]
    exact mul_pos (Real.exp_pos _) hsin
  have hsplit : (((b : ℂ) ^ ((0.25 : ℝ) : ℂ)) * ((273.15 : ℝ) : ℂ)).im =
      ((b : ℂ) ^ ((0.25 : ℝ) : ℂ)).im * 273.15 := by
    rw [Complex.mul_im]
    simp
  rw [hsplit]
  exact ne_of_gt (mul_pos him (by norm_num))

theorem claim_C10_witness :
    ∃ z : ℂ, (calc_panel_temperature 1 1 (-1) 1366).1 = some z ∧
      z.im ≠ 0 :=
  claim_C10_nonreal_on_negative_base 1 1 (-1) 1366 (by norm_num)
    (by rw [STEFAN_BOLTZMANN_eq]; norm_num)
